import Mathlib

/-!
# Verification of the ocs-ci deployment orchestration core

Shallow embedding of `ocs_ci/deployment/deployment.py`, `tests/helpers.py`
and the constants of `ocs_ci/ocs/constants.py` they use.

The orchestration functions perform sequences of external calls (control-plane
CRUD, admin commands, waits) and raise/catch Python exceptions.  We embed each
function as a pure Lean function from a *world* record — an oracle giving the
outcome of every external call the function can make — to a pair of
(trace of emitted external-call events, final outcome `Except Exc Unit`),
where `Except.error e` models the Python function raising exception `e`
and `Except.ok ()` models a normal return.
-/

namespace OcsCi

/-- Python exception values relevant to the deployment core
(`ocs_ci/ocs/exceptions.py` kinds plus builtin ones). -/
inductive Exc where
  /-- `CephHealthException`, carries the health-check error message. -/
  | cephHealth (msg : String)
  /-- `CommandFailed` from a control-plane / shell command. -/
  | commandFailed (msg : String)
  /-- `ResourceWrongStatusException`. -/
  | resourceWrongStatus (msg : String)
  /-- `TimeoutExpiredError`. -/
  | timeoutExpired (msg : String)
  /-- `UnsupportedFeatureError`. -/
  | unsupportedFeature (msg : String)
  /-- `ExternalClusterDetailsException`. -/
  | externalClusterDetails (msg : String)
  /-- builtin `IndexError`. -/
  | indexError
  /-- builtin `AssertionError` (a failed `assert`). -/
  | assertionError (msg : String)
  /-- any other exception (builtin or external). -/
  | other (msg : String)
  deriving Repr, DecidableEq

/-- Substring test on character lists: does `pat` occur as a contiguous
sublist of `s`?  Used to embed Python's `pat in err` on strings. -/
def listHasSub (pat s : List Char) : Bool :=
  match s with
  | [] => decide (pat = [])
  | _ :: rest => decide (pat = s.take pat.length) || listHasSub pat rest

/-- Embedding of Python's substring containment `pat in s`. -/
def strContains (s pat : String) : Bool :=
  listHasSub pat.data s.data

instance {ε α : Type} [DecidableEq ε] [DecidableEq α] : DecidableEq (Except ε α) := fun a b =>
  match a, b with
  | .ok x, .ok y =>
    if h : x = y then isTrue (by rw [h]) else isFalse (fun hc => h (by cases hc; rfl))
  | .error e1, .error e2 =>
    if h : e1 = e2 then isTrue (by rw [h]) else isFalse (fun hc => h (by cases hc; rfl))
  | .ok _, .error _ => isFalse (fun hc => Except.noConfusion hc)
  | .error _, .ok _ => isFalse (fun hc => Except.noConfusion hc)

/-! ## Constants (`ocs_ci/ocs/constants.py`) -/

def DEFAULT_CLUSTERNAME : String := "ocs-storagecluster"

def DEFAULT_STORAGECLASS_CEPHFS : String := DEFAULT_CLUSTERNAME ++ "-cephfs"

def DEFAULT_STORAGECLASS_RBD : String := DEFAULT_CLUSTERNAME ++ "-ceph-rbd"

def VSPHERE_PLATFORM : String := "vsphere"

def STATUS_RUNNING : String := "Running"

/-- Modelled from the spec: `constants.IBM_POWER_PLATFORM` is referenced by
`deployment.py` but its definition is missing from the provided
`ocs_ci/ocs/constants.py`; the spec only describes it as the identifier of the
IBM Power platform family ("one platform family only tears down the storage
layer").  We model it as a fixed platform-identifier string distinct from the
other platform identifiers appearing in the sources. -/
def IBM_POWER_PLATFORM : String := "powervs"

/-! ## External-call events

Each constructor records one external call (control-plane CRUD, wait, admin
command, log collection, …) made by the orchestration code, at the granularity
at which the deployment functions in `deployment.py` invoke them.  Validation
steps that the source wraps in the `retry` decorator carry the decorator's
`(tries, delay)` budget as an `Option (Nat × Nat)` (`none` = invoked bare,
without the retry wrapper). -/

inductive Event where
  /-- `ocp.OCP(kind="CephCluster", ...).get()` probe at the start of `deploy_ocs`. -/
  | getCephCluster
  /-- `logger.warning("OCS cluster already exists")`. -/
  | warnClusterExists
  /-- call of `self.deploy_with_external_mode()`. -/
  | deployWithExternalMode
  /-- `setup_local_storage(...)`. -/
  | setupLocalStorage
  /-- `self.label_and_taint_nodes()`. -/
  | labelAndTaintNodes
  /-- `run_cmd("oc create -f " + OLM_YAML)` (namespace + operator group). -/
  | createOlmResources
  /-- `self.create_ocs_operator_source()` (catalog / operator source). -/
  | createOperatorSource
  /-- `package_manifest.wait_for_resource(timeout=...)`. -/
  | pkgManifestWait (timeout : Nat)
  /-- `run_cmd("oc create -f " + subscription_manifest)`. -/
  | createSubscription
  /-- `wait_for_install_plan_and_approve(namespace)`. -/
  | approveInstallPlan
  /-- `package_manifest.get_current_csv(channel)`. -/
  | getCurrentCsv
  /-- `csv.wait_for_phase(phase, timeout=...)`. -/
  | csvWaitForPhase (phase : String) (timeout : Nat)
  /-- `modify_csv(...)`. -/
  | modifyCsv
  /-- `run_cmd("oc create -f " + CUSTOM_STORAGE_CLASS_PATH)`. -/
  | createCustomStorageClass
  /-- `run_cmd("oc create -f " + cluster_data_yaml, timeout=2400)`: the
  StorageCluster custom-resource create call. -/
  | createStorageCluster
  /-- `_ocp.exec_oc_cmd("annotate namespace ...")`. -/
  | annotateNamespace
  /-- `self.deployment_with_ui()`. -/
  | deploymentWithUi
  /-- `pod.wait_for_resource(condition="Running", selector, resource_count, timeout)`. -/
  | podWait (selector : String) (count : Nat) (timeout : Nat)
  /-- `validate_cluster_on_pvc()`. -/
  | validateClusterOnPvc
  /-- `validate_pdb_creation()`. -/
  | validatePdbCreation
  /-- `setup_ceph_toolbox()`. -/
  | setupCephToolbox
  /-- `cfs.get()` and extraction of the first CephFilesystem name. -/
  | getCephFilesystem
  /-- `helpers.validate_cephfilesystem(cfs_name)`. -/
  | validateCephFilesystem
  /-- `helpers.default_storage_class(interface_type=CEPHBLOCKPOOL)`. -/
  | defaultStorageClassLookup
  /-- `get_all_pods(namespace=..., selector=["prometheus", "alertmanager"])`. -/
  | getMonitoringPods
  /-- `create_configmap_cluster_monitoring_pod(...)`. -/
  | createConfigmapMonitoring
  /-- `time.sleep(secs)`. -/
  | sleep (secs : Nat)
  /-- invocation of `validate_pods_are_respinned_and_running_state`. -/
  | validateRespin (retried : Option (Nat × Nat))
  /-- invocation of `validate_pvc_created_and_bound_on_monitoring_pods`. -/
  | validatePvcCreatedBound (retried : Option (Nat × Nat))
  /-- invocation of `validate_pvc_are_mounted_on_monitoring_pods`. -/
  | validatePvcMounted (retried : Option (Nat × Nat))
  /-- `registry.change_registry_backend_to_ocs()`. -/
  | changeRegistryBackend
  /-- `ceph_health_check(namespace, tries, delay)`. -/
  | cephHealthCheck (tries : Nat) (delay : Nat)
  /-- `update_ntp_compute_nodes()` — the clock-skew remediation action. -/
  | updateNtpComputeNodes
  /-- `run_cmd("oc patch storageclass ...")` in `patch_default_sc_to_non_default`. -/
  | patchDefaultScNonDefault
  /-- `logger.warning("OCP cluster is already running, skipping installation")`. -/
  | warnOcpRunning
  /-- `self.deploy_ocp(log_cli_level)`. -/
  | deployOcp
  /-- `self.post_ocp_deploy()`. -/
  | postOcpDeploy
  /-- `collect_ocs_logs("deployment", ocs=, ocp=, status_failure=)`. -/
  | collectLogs (ocs ocp statusFailure : Bool)
  /-- `logger.warning("OCS deployment will be skipped")`. -/
  | warnOcsSkipped
  /-- `self.destroy_ocs()` (IBM Power storage-layer teardown). -/
  | destroyOcs
  /-- `logger.info("Destroy of OCP not implemented yet.")`. -/
  | infoDestroyOcpNotImplemented
  /-- `uninstall_ocs()`. -/
  | uninstallOcs
  /-- `logger.error("Failed to uninstall OCS. ...")` + `logger.info("resuming teardown")`. -/
  | logUninstallFailed
  /-- `self.ocp_deployment.destroy(log_level)`. -/
  | ocpDestroy
  /-- `resource.ocp.wait_for_resource(condition, resource_name, timeout)`:
  the polling fetch of `wait_for_resource_state`. -/
  | waitForResource (name state : String) (timeout : Nat)
  /-- `logger.info("Attempt to default default Secret or StorageClass")`. -/
  | infoDefaultResourceSkip
  /-- `resource.reload()` in the timeout handler of `wait_for_resource_state`. -/
  | resourceReload
  deriving Repr, DecidableEq

/-! ## Sequencing machinery

A *step* is an optional emitted event together with the step's outcome.
`runSteps` runs a sequential block with Python raise semantics: events are
emitted in order until the first step whose outcome is an exception, which
becomes the outcome of the whole block. -/

abbrev Step := Option Event × Except Exc Unit

def runSteps : List Step → List Event × Except Exc Unit
  | [] => ([], .ok ())
  | (oe, r) :: rest =>
    match r with
    | .error ex => (oe.toList, .error ex)
    | .ok _ => ((oe.toList ++ (runSteps rest).1 : List Event), (runSteps rest).2)

/-- Sequencing of two trace-producing computations: the second runs only when
the first did not raise. -/
def andThen (t s : List Event × Except Exc Unit) : List Event × Except Exc Unit :=
  match t.2 with
  | .error _ => t
  | .ok _ => (t.1 ++ s.1, s.2)

/-- Embedding of Python's `assert f(...)` where `f` returns a boolean:
a raising `f` propagates, a falsy result raises `AssertionError`. -/
def assertStep (r : Except Exc Bool) (failMsg : String) : Except Exc Unit :=
  match r with
  | .error e => .error e
  | .ok true => .ok ()
  | .ok false => .error (.assertionError failMsg)

/-- Embedding of a call whose boolean result is only logged (both branches
continue): a raising call propagates, any returned value is discarded. -/
def ignoreBool (r : Except Exc Bool) : Except Exc Unit :=
  match r with
  | .error e => .error e
  | .ok _ => .ok ()

/-- `beforeIn t a b`: the first occurrence of `a` in `t` is strictly before
some occurrence of `b`. -/
def beforeIn (t : List Event) (a b : Event) : Bool :=
  match t with
  | [] => false
  | x :: rest => if x = a then rest.any (fun y => y = b) else beforeIn rest a b

/-! ## `Deployment.deploy_ocs_via_operator` and `Deployment.subscribe_ocs`

World record: configuration flags read from `config.DEPLOYMENT` /
`config.ENV_DATA`, plus one oracle (`… R`) for the outcome of every external
call the function makes.  The OCS version is a rational number: the source
computes `float(config.ENV_DATA["ocs_version"])` and compares it with the
literals `4.5` / `4.6`, all of which order identically in IEEE double and in
`ℚ`. -/

structure ViaOpWorld where
  uiDeployment : Bool
  liveDeployment : Bool
  localStorage : Bool
  platform : String
  /-- `config.DEPLOYMENT.get("subscription_plan_approval")` (absent = `none`). -/
  subscriptionPlanApproval : Option String
  ocsVersion : ℚ
  encryptionAtRest : Bool
  infraNodes : Bool
  /-- both `csv_change_from` and `csv_change_to` present in `config.DEPLOYMENT`. -/
  csvChange : Bool
  /-- `self.CUSTOM_STORAGE_CLASS_PATH is not None` (a platform-subclass field;
  `None` in the base class). -/
  customStorageClassPath : Bool
  setupLocalStorageR : Except Exc Unit
  labelTaintR : Except Exc Unit
  olmCreateR : Except Exc Unit
  operatorSourceR : Except Exc Unit
  uiRunR : Except Exc Unit
  pkgWait1R : Except Exc Unit
  subCreateR : Except Exc Unit
  approveR : Except Exc Unit
  pkgWait2R : Except Exc Unit
  csvNameR : Except Exc Unit
  csvWaitR : Except Exc Unit
  modifyCsvR : Except Exc Unit
  customScR : Except Exc Unit
  createClusterR : Except Exc Unit
  annotateR : Except Exc Unit

/-- Steps of `Deployment.subscribe_ocs`: wait for the package manifest
(timeout 300), create the subscription manifest, and — exactly when the
configured `subscription_plan_approval` equals `"Manual"` — call
`wait_for_install_plan_and_approve`. -/
def subscribe_ocs (w : ViaOpWorld) : List Step :=
  [(some (.pkgManifestWait 300), w.pkgWait1R),
   (some .createSubscription, w.subCreateR)]
  ++ (if w.subscriptionPlanApproval = some "Manual"
      then [(some .approveInstallPlan, w.approveR)] else [])

/-- The encryption-at-rest gate of the StorageCluster spec assembly
(lines 569–573 of `deployment.py`): raise `UnsupportedFeatureError` when
`encryption_at_rest` is requested and `ocs_version < 4.6`.  On the IBM Power
platform the local variable `ocs_version` is never assigned (it is bound only
in the non-IBM branch of the device-set assembly, line 492), so the check
itself raises a `NameError` there. -/
def encryptionGate (w : ViaOpWorld) : Except Exc Unit :=
  if w.encryptionAtRest then
    if w.platform = IBM_POWER_PLATFORM then
      .error (.other "NameError: ocs_version referenced before assignment")
    else if w.ocsVersion < mkRat 46 10 then
      .error (.unsupportedFeature "Encryption at REST can be enabled only on OCS >= 4.6!")
    else .ok ()
  else .ok ()

/-- Steps of `Deployment.deploy_ocs_via_operator`.  The StorageCluster data
assembly (device sets, resource overrides, host network) mutates only the
in-memory YAML document and makes no external call; the only control effect it
has is the encryption gate, embedded as an event-less step. -/
def viaOpSteps (w : ViaOpWorld) : List Step :=
  (if w.localStorage then [(some .setupLocalStorage, w.setupLocalStorageR)] else [])
  ++ (if w.uiDeployment then
        (if w.liveDeployment then [] else [(some .createOperatorSource, w.operatorSourceR)])
        ++ [(some .deploymentWithUi, w.uiRunR)]
      else
        [(some .labelAndTaintNodes, w.labelTaintR),
         (some .createOlmResources, w.olmCreateR)]
        ++ (if w.liveDeployment then [] else [(some .createOperatorSource, w.operatorSourceR)])
        ++ subscribe_ocs w
        ++ [(some (.pkgManifestWait 300), w.pkgWait2R),
            (some .getCurrentCsv, w.csvNameR),
            (some (.csvWaitForPhase "Succeeded" 720), w.csvWaitR)]
        ++ (if w.csvChange then [(some .modifyCsv, w.modifyCsvR)] else [])
        ++ (if w.customStorageClassPath then [(some .createCustomStorageClass, w.customScR)] else [])
        ++ [(none, encryptionGate w),
            (some .createStorageCluster, w.createClusterR)]
        ++ (if w.infraNodes then [(some .annotateNamespace, w.annotateR)] else []))

def deploy_ocs_via_operator (w : ViaOpWorld) : List Event × Except Exc Unit :=
  runSteps (viaOpSteps w)

/-- A `ViaOpWorld` in which every external call succeeds: non-UI, non-live,
non-LSO deployment on a generic cloud platform, default (`Automatic`) install
plan approval, OCS version 4.6, no optional extras. -/
def viaOpBase : ViaOpWorld where
  uiDeployment := false
  liveDeployment := false
  localStorage := false
  platform := "aws"
  subscriptionPlanApproval := none
  ocsVersion := mkRat 46 10
  encryptionAtRest := false
  infraNodes := false
  csvChange := false
  customStorageClassPath := false
  setupLocalStorageR := .ok ()
  labelTaintR := .ok ()
  olmCreateR := .ok ()
  operatorSourceR := .ok ()
  uiRunR := .ok ()
  pkgWait1R := .ok ()
  subCreateR := .ok ()
  approveR := .ok ()
  pkgWait2R := .ok ()
  csvNameR := .ok ()
  csvWaitR := .ok ()
  modifyCsvR := .ok ()
  customScR := .ok ()
  createClusterR := .ok ()
  annotateR := .ok ()

/-! ## The `retry` decorator

`Deployment.deploy_ocs` wraps two of the monitoring validations in
`retry(exception_types, tries=3, delay=15)`. -/

/-- Modelled from the spec: the `retry` decorator (`ocs_ci.utility.retry`, not
among the provided sources) returns a wrapper that re-invokes the wrapped
callable up to `tries` times while it raises one of the listed exception
types, re-raising the last exception when the attempts are exhausted;
`tries ≤ 1` performs exactly one attempt, and an exception of a type not
listed propagates immediately without retry.  `attempts k` is the oracle for
the outcome of the k-th invocation of the wrapped callable; the sleeps between
attempts do not affect outcomes and are not modelled. -/
def retryRun (caught : Exc → Bool) :
    Nat → (Nat → Except Exc Unit) → Nat → Except Exc Unit
  | 0, attempts, k => attempts k
  | 1, attempts, k => attempts k
  | n + 2, attempts, k =>
    match attempts k with
    | .ok _ => .ok ()
    | .error e =>
      if caught e then retryRun caught (n + 1) attempts (k + 1) else .error e

/-- Exception types retried around `validate_pods_are_respinned_and_running_state`:
`(CommandFailed, ResourceWrongStatusException)`. -/
def respinCaught : Exc → Bool
  | .commandFailed _ => true
  | .resourceWrongStatus _ => true
  | _ => false

/-- Exception types retried around `validate_pvc_are_mounted_on_monitoring_pods`:
`(CommandFailed, AssertionError)`. -/
def mountedCaught : Exc → Bool
  | .commandFailed _ => true
  | .assertionError _ => true
  | _ => false

/-! ## `Deployment.deploy_ocs` -/

/-- Outcome of the CephCluster idempotence probe
`ceph_cluster.get().get("items")[0]` at the start of `deploy_ocs`. -/
inductive ProbeResult where
  /-- the cluster resource collection is non-empty: an OCS cluster exists. -/
  | found
  /-- the collection is empty: indexing `[0]` raises `IndexError`. -/
  | emptyItems
  /-- the control-plane query itself fails: `CommandFailed`. -/
  | cmdFailed (msg : String)
  /-- the probe raises any other exception. -/
  | otherExc (e : Exc)
  deriving Repr, DecidableEq

structure DeployOcsWorld where
  probe : ProbeResult
  /-- `config.DEPLOYMENT["external_mode"]`. -/
  externalMode : Bool
  /-- outcome of `self.deploy_with_external_mode()` (modelled as one call). -/
  externalR : Except Exc Unit
  viaOp : ViaOpWorld
  monWaitR : Except Exc Bool
  mgrWaitR : Except Exc Bool
  osdWaitR : Except Exc Bool
  clusterOnPvcR : Except Exc Unit
  pdbR : Except Exc Unit
  toolboxR : Except Exc Unit
  toolsWaitR : Except Exc Bool
  cfsGetR : Except Exc Unit
  validateCfsR : Except Exc Bool
  /-- `config.ENV_DATA.get("monitoring_enabled")`. -/
  monitoringEnabled : Bool
  /-- `config.ENV_DATA.get("persistent-monitoring")`. -/
  persistentMonitoring : Bool
  /-- `config.ENV_DATA.get("telemeter_server_url")` is set. -/
  telemeterUrlSet : Bool
  scLookupR : Except Exc Unit
  podsListR : Except Exc Unit
  configmapR : Except Exc Unit
  /-- per-attempt outcomes of `validate_pods_are_respinned_and_running_state`. -/
  respinAttempts : Nat → Except Exc Unit
  /-- per-attempt outcomes of `validate_pvc_created_and_bound_on_monitoring_pods`. -/
  pvcBoundAttempts : Nat → Except Exc Unit
  /-- per-attempt outcomes of `validate_pvc_are_mounted_on_monitoring_pods`. -/
  mountedAttempts : Nat → Except Exc Unit
  registryR : Except Exc Unit
  /-- outcome of `ceph_health_check(namespace, tries=30, delay=10)`. -/
  health1R : Except Exc Unit
  /-- outcome of the recheck `ceph_health_check(namespace, tries=60, delay=10)`. -/
  health2R : Except Exc Bool
  platform : String
  /-- `self.DEFAULT_STORAGECLASS` (a platform-subclass field, `None` in the base
  class). -/
  defaultStorageclassName : Option String
  patchScR : Except Exc Unit

/-- The persistent-monitoring reconfiguration block of `deploy_ocs`
(lines 732–776): entered when both `monitoring_enabled` and
`persistent-monitoring` are configured; the respin and mount validations are
wrapped in `retry(..., tries=3, delay=15)`, the created-and-bound validation
is invoked bare.  The `elif` branch reconfigures only the telemeter server
url. -/
def monitoringSteps (w : DeployOcsWorld) : List Step :=
  if w.monitoringEnabled && w.persistentMonitoring then
    [(some .defaultStorageClassLookup, w.scLookupR),
     (some .getMonitoringPods, w.podsListR),
     (some .createConfigmapMonitoring, w.configmapR),
     (some (.sleep 45), .ok ()),
     (some (.validateRespin (some (3, 15))), retryRun respinCaught 3 w.respinAttempts 0),
     (some (.validatePvcCreatedBound none), w.pvcBoundAttempts 0),
     (some (.validatePvcMounted (some (3, 15))), retryRun mountedCaught 3 w.mountedAttempts 0)]
  else if w.monitoringEnabled && w.telemeterUrlSet then
    [(some .createConfigmapMonitoring, w.configmapR)]
  else []

/-- The sequential steps of `deploy_ocs` between `deploy_ocs_via_operator`
and the final ceph health check (lines 686–779). -/
def deployOcsMainSteps (w : DeployOcsWorld) : List Step :=
  [(some (.podWait "app=rook-ceph-mon" 3 600), assertStep w.monWaitR "mon wait"),
   (some (.podWait "app=rook-ceph-mgr" 1 600), assertStep w.mgrWaitR "mgr wait"),
   (some (.podWait "app=rook-ceph-osd" 3 600), assertStep w.osdWaitR "osd wait"),
   (some .validateClusterOnPvc, w.clusterOnPvcR),
   (some .validatePdbCreation, w.pdbR),
   (some .setupCephToolbox, w.toolboxR),
   (some (.podWait "app=rook-ceph-tools" 1 600), assertStep w.toolsWaitR "tools wait"),
   (some .getCephFilesystem, w.cfsGetR),
   (some .validateCephFilesystem, ignoreBool w.validateCfsR)]
  ++ monitoringSteps w
  ++ [(some .changeRegistryBackend, w.registryR)]

/-- The final health-validation of `deploy_ocs` (lines 784–795):
`ceph_health_check(tries=30, delay=10)` inside `try`; a raised
`CephHealthException` is caught, and when its message contains
`"clock skew detected"` the NTP of the compute nodes is resynced (vSphere
platform only) and health is rechecked with `tries=60, delay=10` under
`assert`; a caught exception whose message lacks the marker is only logged.
Exceptions other than `CephHealthException` are not caught. -/
def cephHealthSection (w : DeployOcsWorld) : List Event × Except Exc Unit :=
  match w.health1R with
  | .ok _ => ([.cephHealthCheck 30 10], .ok ())
  | .error e =>
    match e with
    | .cephHealth msg =>
      if strContains msg "clock skew detected" then
        (([Event.cephHealthCheck 30 10]
          ++ (if w.platform = VSPHERE_PLATFORM then [Event.updateNtpComputeNodes] else [])
          ++ [Event.cephHealthCheck 60 10]),
         assertStep w.health2R "ceph health recheck")
      else
        ([.cephHealthCheck 30 10], .ok ())
    | _ => ([.cephHealthCheck 30 10], .error e)

/-- `Deployment.patch_default_sc_to_non_default`: no call is made when the
platform class defines no default storage class. -/
def patch_default_sc_to_non_default (w : DeployOcsWorld) : List Event × Except Exc Unit :=
  match w.defaultStorageclassName with
  | none => ([], .ok ())
  | some _ => ([.patchDefaultScNonDefault], w.patchScR)

/-- The installation body of `deploy_ocs`, entered when the probe found no
pre-existing CephCluster: the external-mode branch, or the operator-driven
install followed by the validation block, the final health check with
clock-skew recovery, and the default-storage-class patch. -/
def deployOcsInstall (w : DeployOcsWorld) : List Event × Except Exc Unit :=
  if w.externalMode then
    ([.getCephCluster, .deployWithExternalMode], w.externalR)
  else
    andThen (andThen (andThen
      (andThen ([Event.getCephCluster], .ok ()) (deploy_ocs_via_operator w.viaOp))
      (runSteps (deployOcsMainSteps w)))
      (cephHealthSection w))
      (patch_default_sc_to_non_default w)

/-- `Deployment.deploy_ocs` (lines 668–798): the CephCluster idempotence
probe — an existing cluster short-circuits to a logged no-op, `IndexError`
and `CommandFailed` from the probe both fall through to installation, any
other probe exception propagates — followed by the installation body. -/
def deploy_ocs (w : DeployOcsWorld) : List Event × Except Exc Unit :=
  match w.probe with
  | .found => ([.getCephCluster, .warnClusterExists], .ok ())
  | .otherExc e => ([.getCephCluster], .error e)
  | _ => deployOcsInstall w

/-- A `DeployOcsWorld` in which no OCS cluster exists yet, every external call
succeeds at once and monitoring/telemeter extras are off. -/
def ocsBase : DeployOcsWorld where
  probe := .emptyItems
  externalMode := false
  externalR := .ok ()
  viaOp := viaOpBase
  monWaitR := .ok true
  mgrWaitR := .ok true
  osdWaitR := .ok true
  clusterOnPvcR := .ok ()
  pdbR := .ok ()
  toolboxR := .ok ()
  toolsWaitR := .ok true
  cfsGetR := .ok ()
  validateCfsR := .ok true
  monitoringEnabled := false
  persistentMonitoring := false
  telemeterUrlSet := false
  scLookupR := .ok ()
  podsListR := .ok ()
  configmapR := .ok ()
  respinAttempts := fun _ => .ok ()
  pvcBoundAttempts := fun _ => .ok ()
  mountedAttempts := fun _ => .ok ()
  registryR := .ok ()
  health1R := .ok ()
  health2R := .ok true
  platform := "aws"
  defaultStorageclassName := some "gp2"
  patchScR := .ok ()

/-! ## `Deployment.deploy_cluster` -/

structure DeployClusterWorld where
  /-- `config.ENV_DATA["skip_ocp_deployment"]`. -/
  skipOcpDeployment : Bool
  /-- `is_cluster_running(self.cluster_path)`. -/
  clusterRunning : Bool
  deployOcpR : Except Exc Unit
  postOcpDeployR : Except Exc Unit
  /-- `config.REPORTING["gather_on_deploy_failure"]`. -/
  gatherOnDeployFailure : Bool
  /-- outcome of `collect_ocs_logs("deployment", ocs=False)` in the OCP handler. -/
  collectOcpPhaseR : Except Exc Unit
  /-- `config.ENV_DATA["skip_ocs_deployment"]`. -/
  skipOcsDeployment : Bool
  ocs : DeployOcsWorld
  /-- `config.REPORTING["collect_logs_on_success_run"]`. -/
  collectLogsOnSuccessRun : Bool
  /-- outcome of `collect_ocs_logs("deployment", ocp=False, status_failure=False)`. -/
  collectSuccessR : Except Exc Unit
  /-- outcome of `collect_ocs_logs("deployment", ocs=False)` in the OCS handler. -/
  collectFail1R : Except Exc Unit
  /-- outcome of `collect_ocs_logs("deployment", ocp=False)` in the OCS handler. -/
  collectFail2R : Except Exc Unit

/-- The `except` handler of the OCP phase (lines 128–133): log, then — only
when `gather_on_deploy_failure` is configured — collect logs, then `raise`.
The collection call is not guarded: when it raises, its exception propagates
in place of the original one. -/
def ocpPhaseHandler (w : DeployClusterWorld) (tr : List Event) (e : Exc) :
    List Event × Except Exc Unit :=
  if w.gatherOnDeployFailure then
    match w.collectOcpPhaseR with
    | .ok _ => (tr ++ [.collectLogs false true true], .error e)
    | .error e2 => (tr ++ [.collectLogs false true true], .error e2)
  else (tr, .error e)

/-- OCP phase of `deploy_cluster` (lines 121–133). -/
def ocpPhase (w : DeployClusterWorld) : List Event × Except Exc Unit :=
  if w.skipOcpDeployment then ([], .ok ())
  else if w.clusterRunning then ([.warnOcpRunning], .ok ())
  else
    match w.deployOcpR with
    | .error e => ocpPhaseHandler w [Event.deployOcp] e
    | .ok _ =>
      match w.postOcpDeployR with
      | .error e => ocpPhaseHandler w [Event.deployOcp, Event.postOcpDeploy] e
      | .ok _ => ([.deployOcp, .postOcpDeploy], .ok ())

/-- The `except` handler of the OCS phase (lines 140–147): log, then — only
when `gather_on_deploy_failure` is configured — the two collection calls, then
`raise`.  Neither collection call is guarded: when one raises, its exception
propagates in place of the original one (and the second collection is
skipped). -/
def ocsPhaseHandler (w : DeployClusterWorld) (tr : List Event) (e : Exc) :
    List Event × Except Exc Unit :=
  if w.gatherOnDeployFailure then
    match w.collectFail1R with
    | .error e2 => (tr ++ [.collectLogs false true true], .error e2)
    | .ok _ =>
      match w.collectFail2R with
      | .error e3 =>
        (tr ++ [.collectLogs false true true, .collectLogs true false true], .error e3)
      | .ok _ =>
        (tr ++ [.collectLogs false true true, .collectLogs true false true], .error e)
  else (tr, .error e)

/-- OCS phase of `deploy_cluster` (lines 135–149).  The collect-on-success
call sits inside the `try` block, so its exception is handled like a
deployment failure. -/
def ocsPhase (w : DeployClusterWorld) : List Event × Except Exc Unit :=
  if w.skipOcsDeployment then ([.warnOcsSkipped], .ok ())
  else
    match (deploy_ocs w.ocs).2 with
    | .error e => ocsPhaseHandler w (deploy_ocs w.ocs).1 e
    | .ok _ =>
      if w.collectLogsOnSuccessRun then
        match w.collectSuccessR with
        | .ok _ => ((deploy_ocs w.ocs).1 ++ [.collectLogs true false false], .ok ())
        | .error e =>
          ocsPhaseHandler w ((deploy_ocs w.ocs).1 ++ [.collectLogs true false false]) e
      else ((deploy_ocs w.ocs).1, .ok ())

/-- `Deployment.deploy_cluster` (lines 114–149): OCP phase then OCS phase;
an exception raised (or re-raised) by the OCP phase aborts the run before the
OCS phase. -/
def deploy_cluster (w : DeployClusterWorld) : List Event × Except Exc Unit :=
  andThen (ocpPhase w) (ocsPhase w)

/-! ## `Deployment.destroy_cluster` -/

structure DestroyClusterWorld where
  platform : String
  skipOcsDeployment : Bool
  skipOcpDeployment : Bool
  destroyOcsR : Except Exc Unit
  uninstallOcsR : Except Exc Unit
  ocpDestroyR : Except Exc Unit

/-- `Deployment.destroy_cluster` (lines 800–823): on the IBM Power platform
only the storage layer is torn down and full OCP teardown is announced as not
implemented; on every other platform `uninstall_ocs()` runs first, any
exception it raises is logged and swallowed, and the platform OCP teardown
always follows. -/
def destroy_cluster (w : DestroyClusterWorld) : List Event × Except Exc Unit :=
  if w.platform = IBM_POWER_PLATFORM then
    andThen
      (if w.skipOcsDeployment then ([], .ok ()) else ([.destroyOcs], w.destroyOcsR))
      (if w.skipOcpDeployment then ([], .ok ())
       else ([.infoDestroyOcpNotImplemented], .ok ()))
  else
    andThen
      (match w.uninstallOcsR with
       | .ok _ => ([.uninstallOcs], .ok ())
       | .error _ => ([.uninstallOcs, .logUninstallFailed], .ok ()))
      ([.ocpDestroy], w.ocpDestroyR)

/-! ## `wait_for_resource_state` (`tests/helpers.py`, lines 86–114) -/

/-- `wait_for_resource_state(resource, state, timeout)`: the two well-known
default storage-class names short-circuit to an immediate successful return
without any fetch; otherwise `resource.ocp.wait_for_resource` is polled, a
`TimeoutExpiredError` is converted (after a reload) into
`ResourceWrongStatusException`, and any other exception propagates.
`fetchR` is the oracle for the outcome of the polling fetch. -/
def wait_for_resource_state (name state : String) (timeout : Nat)
    (fetchR : Except Exc Unit) : List Event × Except Exc Unit :=
  if name = DEFAULT_STORAGECLASS_CEPHFS ∨ name = DEFAULT_STORAGECLASS_RBD then
    ([.infoDefaultResourceSkip], .ok ())
  else
    match fetchR with
    | .ok _ => ([.waitForResource name state timeout], .ok ())
    | .error (.timeoutExpired _) =>
      ([.waitForResource name state timeout, .resourceReload],
       .error (.resourceWrongStatus name))
    | .error e => ([.waitForResource name state timeout], .error e)

/-! ## Event pools: which events each phase can emit at all -/

/-- Every event `deploy_ocs_via_operator` can emit. -/
def viaOpEventPool : List Event :=
  [.setupLocalStorage, .createOperatorSource, .deploymentWithUi,
   .labelAndTaintNodes, .createOlmResources, .pkgManifestWait 300,
   .createSubscription, .approveInstallPlan, .getCurrentCsv,
   .csvWaitForPhase "Succeeded" 720, .modifyCsv, .createCustomStorageClass,
   .createStorageCluster, .annotateNamespace]

/-- Every event the validation block of `deploy_ocs` can emit. -/
def mainEventPool : List Event :=
  [.podWait "app=rook-ceph-mon" 3 600, .podWait "app=rook-ceph-mgr" 1 600,
   .podWait "app=rook-ceph-osd" 3 600, .validateClusterOnPvc,
   .validatePdbCreation, .setupCephToolbox, .podWait "app=rook-ceph-tools" 1 600,
   .getCephFilesystem, .validateCephFilesystem, .defaultStorageClassLookup,
   .getMonitoringPods, .createConfigmapMonitoring, .sleep 45,
   .validateRespin (some (3, 15)), .validatePvcCreatedBound none,
   .validatePvcMounted (some (3, 15)), .changeRegistryBackend]

/-- The probe found no existing CephCluster: the collection was empty
(`IndexError`) or the query failed (`CommandFailed`). -/
def noClusterProbe (w : DeployOcsWorld) : Prop :=
  w.probe = ProbeResult.emptyItems ∨ ∃ m, w.probe = ProbeResult.cmdFailed m

/-! ## Concrete worlds used by witnesses and counterexamples -/

/-- IBM Power teardown world: nothing skipped, storage teardown succeeds. -/
def destroyIbmWorld : DestroyClusterWorld where
  platform := IBM_POWER_PLATFORM
  skipOcsDeployment := false
  skipOcpDeployment := false
  destroyOcsR := .ok ()
  uninstallOcsR := .ok ()
  ocpDestroyR := .ok ()

/-- Non-IBM teardown world in which the storage uninstall raises. -/
def destroyAwsWorld : DestroyClusterWorld where
  platform := "aws"
  skipOcsDeployment := false
  skipOcpDeployment := false
  destroyOcsR := .ok ()
  uninstallOcsR := .error (.commandFailed "uninstall failed")
  ocpDestroyR := .ok ()

/-- A `ViaOpWorld` identical to `viaOpBase` but with `"Manual"` install-plan
approval configured. -/
def viaOpManual : ViaOpWorld :=
  { viaOpBase with subscriptionPlanApproval := some "Manual" }

/-- A `ViaOpWorld` requesting encryption at rest on OCS 4.5. -/
def viaOpEnc45 : ViaOpWorld :=
  { viaOpBase with encryptionAtRest := true, ocsVersion := mkRat 45 10 }

/-- `deploy_ocs` world with all calls succeeding except the final health
check, which raises a `CephHealthException` without the clock-skew marker. -/
def ocsHealthErr : DeployOcsWorld :=
  { ocsBase with health1R := Except.error (Exc.cephHealth "HEALTH_ERR 1 full osd(s)") }

/-- `deploy_ocs` world on a non-vSphere platform whose first health check
reports clock skew and whose recheck succeeds. -/
def ocsSkewAws : DeployOcsWorld :=
  { ocsBase with
      health1R := Except.error (Exc.cephHealth "HEALTH_WARN clock skew detected on mon-a") }

/-- `deploy_ocs` world on vSphere whose first health check reports clock skew
and whose recheck succeeds. -/
def ocsSkewVsphere : DeployOcsWorld :=
  { ocsBase with
      platform := VSPHERE_PLATFORM,
      health1R := Except.error (Exc.cephHealth "HEALTH_WARN clock skew detected on mon-a") }

/-- `deploy_ocs` world with persistent monitoring on, in which the bare
created-and-bound validation fails on its first invocation but would succeed
on a second one. -/
def ocsMonBoundFail : DeployOcsWorld :=
  { ocsBase with
      monitoringEnabled := true,
      persistentMonitoring := true,
      pvcBoundAttempts := fun k =>
        if k = 0 then Except.error (Exc.commandFailed "oc get pvc failed")
        else Except.ok () }

/-- `deploy_ocs` world with persistent monitoring on and every call
succeeding. -/
def ocsMon : DeployOcsWorld :=
  { ocsBase with monitoringEnabled := true, persistentMonitoring := true }

/-- `deploy_cluster` world in which OCP deployment is skipped, `deploy_ocs`
fails, log gathering is configured, and the first log collection itself
raises. -/
def clusterCollectMask : DeployClusterWorld where
  skipOcpDeployment := true
  clusterRunning := false
  deployOcpR := .ok ()
  postOcpDeployR := .ok ()
  gatherOnDeployFailure := true
  collectOcpPhaseR := .ok ()
  skipOcsDeployment := false
  ocs := { ocsBase with probe := ProbeResult.otherExc (Exc.other "boom") }
  collectLogsOnSuccessRun := false
  collectSuccessR := .ok ()
  collectFail1R := .error (.commandFailed "disk full")
  collectFail2R := .ok ()

/-- `deploy_cluster` world like `clusterCollectMask` but with both collection
calls succeeding. -/
def clusterGather : DeployClusterWorld :=
  { clusterCollectMask with collectFail1R := .ok () }

/-! ## Lemmas and claim theorems -/

/-- Any event emitted by `runSteps` is the event of one of its steps. -/
theorem mem_runSteps {e : Event} {l : List Step} (h : e ∈ (runSteps l).1) :
    some e ∈ l.map Prod.fst := by
  induction l with
  | nil => simp [runSteps] at h
  | cons p rest ih =>
    obtain ⟨oe, r⟩ := p
    cases r with
    | error ex =>
      simp only [runSteps] at h
      cases oe <;> simp_all [Option.toList]
    | ok u =>
      simp only [runSteps, List.mem_append] at h
      rcases h with h | h
      · cases oe <;> simp_all [Option.toList]
      · exact List.mem_cons_of_mem _ (ih h)

/-- When every step succeeds, `runSteps` emits exactly the steps' events and
succeeds. -/
theorem runSteps_all_ok {l : List Step} (h : ∀ p ∈ l, p.2 = Except.ok ()) :
    runSteps l = (l.filterMap Prod.fst, Except.ok ()) := by
  induction l with
  | nil => simp [runSteps]
  | cons p rest ih =>
    obtain ⟨oe, r⟩ := p
    have hp : r = Except.ok () := h (oe, r) (List.mem_cons_self _ _)
    subst hp
    have hrest : ∀ p ∈ rest, p.2 = Except.ok () :=
      fun p hp => h p (List.mem_cons_of_mem _ hp)
    simp [runSteps, ih hrest, List.filterMap_cons]
    cases oe <;> simp [Option.toList]

/-- `beforeIn` is stable under appending further events on the right. -/
theorem beforeIn_append_left {t : List Event} {a b : Event}
    (h : beforeIn t a b = true) (s : List Event) :
    beforeIn (t ++ s) a b = true := by
  induction t with
  | nil => simp [beforeIn] at h
  | cons x rest ih =>
    simp only [beforeIn, List.cons_append] at h ⊢
    by_cases hx : x = a
    · simp only [if_pos hx] at h ⊢
      simp [List.any_append, h]
    · simp only [if_neg hx] at h ⊢
      exact ih h

/-! ## General lemmas about the sequencing machinery -/

theorem andThen_ok {t s : List Event × Except Exc Unit} (h : t.2 = Except.ok ()) :
    andThen t s = (t.1 ++ s.1, s.2) := by
  unfold andThen
  rw [h]

theorem andThen_error {t s : List Event × Except Exc Unit} {e : Exc}
    (h : t.2 = Except.error e) : andThen t s = t := by
  unfold andThen
  rw [h]

theorem andThen_assoc (t s u : List Event × Except Exc Unit) :
    andThen (andThen t s) u = andThen t (andThen s u) := by
  obtain ⟨t1, t2⟩ := t
  obtain ⟨s1, s2⟩ := s
  cases t2 with
  | error e => simp [andThen]
  | ok v =>
    cases s2 with
    | error e => simp [andThen]
    | ok v2 => simp [andThen, List.append_assoc]

/-- `runSteps` over a concatenation whose first block fully succeeds. -/
theorem runSteps_append_ok {l1 l2 : List Step} (h : ∀ p ∈ l1, p.2 = Except.ok ()) :
    runSteps (l1 ++ l2)
    = (l1.filterMap Prod.fst ++ (runSteps l2).1, (runSteps l2).2) := by
  induction l1 with
  | nil => simp [runSteps]
  | cons p rest ih =>
    obtain ⟨oe, r⟩ := p
    have hp : r = Except.ok () := h (oe, r) (List.mem_cons_self _ _)
    subst hp
    have hrest : ∀ p ∈ rest, p.2 = Except.ok () :=
      fun p hp => h p (List.mem_cons_of_mem _ hp)
    simp [runSteps, ih hrest, List.filterMap_cons]
    cases oe <;> simp [Option.toList]

/-- The event of the head step is emitted whether or not that step raises. -/
theorem runSteps_cons_some (e : Event) (r : Except Exc Unit) (rest : List Step) :
    ∃ t, (runSteps ((some e, r) :: rest)).1 = e :: t := by
  cases r with
  | error ex => exact ⟨[], rfl⟩
  | ok v => exact ⟨(runSteps rest).1, rfl⟩

theorem mem_ite_cases {α : Type} {x : α} {c : Prop} [Decidable c] {A B : List α}
    (h : x ∈ (if c then A else B)) : x ∈ A ∨ x ∈ B := by
  split at h
  · exact Or.inl h
  · exact Or.inr h

theorem subset_ite {α : Type} {c : Prop} [Decidable c] {A B P : List α}
    (hA : A ⊆ P) (hB : B ⊆ P) : (if c then A else B) ⊆ P := by
  split
  · exact hA
  · exact hB

/-- The step list of `deploy_ocs_via_operator` only ever names events of
`viaOpEventPool` (or the event-less encryption-gate step). -/
theorem viaOpSteps_fst_subset (v : ViaOpWorld) :
    (viaOpSteps v).map Prod.fst ⊆ viaOpEventPool.map some ++ [none] := by
  unfold viaOpSteps subscribe_ocs
  simp only [List.map_append, apply_ite (List.map (Prod.fst (α := Option Event) (β := Except Exc Unit))),
    List.map_cons, List.map_nil]
  repeat'
    first
    | refine List.append_subset.mpr ⟨?_, ?_⟩
    | apply subset_ite
    | decide

theorem viaOp_pool (v : ViaOpWorld) {e : Event}
    (h : e ∈ (deploy_ocs_via_operator v).1) : e ∈ viaOpEventPool := by
  have h2 := viaOpSteps_fst_subset v (mem_runSteps h)
  simp only [List.mem_append, List.mem_map, List.mem_singleton] at h2
  rcases h2 with ⟨x, hx, hxe⟩ | h2
  · cases hxe
    exact hx
  · cases h2

theorem main_pool (w : DeployOcsWorld) {e : Event}
    (h : e ∈ (runSteps (deployOcsMainSteps w)).1) : e ∈ mainEventPool := by
  have h2 := mem_runSteps h
  by_cases b1 : w.monitoringEnabled <;> by_cases b2 : w.persistentMonitoring <;>
    by_cases b3 : w.telemeterUrlSet <;>
    simp_all [deployOcsMainSteps, monitoringSteps, mainEventPool] <;> tauto

/-- Trace/outcome decomposition of `deploy_ocs` for a run in which no cluster
pre-exists, external mode is off, and the operator install and the validation
block both succeed. -/
theorem deploy_ocs_decomp (w : DeployOcsWorld)
    (hp : noClusterProbe w) (he : w.externalMode = false)
    (hvia : (deploy_ocs_via_operator w.viaOp).2 = Except.ok ())
    (hmain : (runSteps (deployOcsMainSteps w)).2 = Except.ok ()) :
    deploy_ocs w
    = andThen
        (Event.getCephCluster ::
          ((deploy_ocs_via_operator w.viaOp).1 ++ (runSteps (deployOcsMainSteps w)).1),
         Except.ok ())
        (andThen (cephHealthSection w) (patch_default_sc_to_non_default w)) := by
  have hbody :
      deploy_ocs w
      = andThen (andThen (andThen
          (andThen ([Event.getCephCluster], Except.ok ()) (deploy_ocs_via_operator w.viaOp))
          (runSteps (deployOcsMainSteps w)))
          (cephHealthSection w))
          (patch_default_sc_to_non_default w) := by
    rcases hp with hp | ⟨m, hp⟩ <;> rw [deploy_ocs, hp] <;> simp [deployOcsInstall, he]
  have h1 : andThen ([Event.getCephCluster], Except.ok ()) (deploy_ocs_via_operator w.viaOp)
      = (Event.getCephCluster :: (deploy_ocs_via_operator w.viaOp).1, Except.ok ()) := by
    rw [andThen_ok rfl, hvia]
    rfl
  have h2 : andThen
        (Event.getCephCluster :: (deploy_ocs_via_operator w.viaOp).1, Except.ok ())
        (runSteps (deployOcsMainSteps w))
      = (Event.getCephCluster ::
          ((deploy_ocs_via_operator w.viaOp).1 ++ (runSteps (deployOcsMainSteps w)).1),
         Except.ok ()) := by
    rw [andThen_ok rfl, hmain]
    simp
  rw [hbody, h1, h2, andThen_assoc]

/-! ## Claim theorems -/

/-- Claim C6: if a CephCluster object already exists when `deploy_ocs` is
invoked, the installing phase is a no-op — `deploy_ocs` logs a warning and
returns without error, performing no installation step (the trace holds the
probe and the warning only). -/
theorem deploy_ocs_idempotence_guard (w : DeployOcsWorld)
    (h : w.probe = ProbeResult.found) :
    deploy_ocs w = ([Event.getCephCluster, Event.warnClusterExists], Except.ok ()) := by
  rw [deploy_ocs, h]

/-- Witness for C6 at a concrete world with an existing cluster. -/
theorem deploy_ocs_idempotence_guard_witness :
    deploy_ocs { ocsBase with probe := ProbeResult.found }
    = ([Event.getCephCluster, Event.warnClusterExists], Except.ok ()) :=
  deploy_ocs_idempotence_guard { ocsBase with probe := ProbeResult.found } rfl

/-- Claim C10: in the CephCluster probe of `deploy_ocs`, an empty result
collection (`IndexError`) and a failed control-plane query (`CommandFailed`)
are treated identically — both fall through to the installation body — while
any other exception from the probe propagates to the caller with no further
step taken. -/
theorem deploy_ocs_probe_exception_policy (w : DeployOcsWorld) (m : String) (e : Exc) :
    deploy_ocs { w with probe := ProbeResult.emptyItems } = deployOcsInstall w
    ∧ deploy_ocs { w with probe := ProbeResult.cmdFailed m } = deployOcsInstall w
    ∧ deploy_ocs { w with probe := ProbeResult.otherExc e }
      = ([Event.getCephCluster], Except.error e) :=
  ⟨rfl, rfl, rfl⟩

/-- Claim C8: `wait_for_resource_state` returns immediately with success and
without any polling fetch for the two well-known default storage-class names;
for every other resource name the polling fetch is invoked. -/
theorem wait_for_resource_state_default_sc_skip (name state : String) (timeout : Nat)
    (fetchR : Except Exc Unit) :
    ((name = DEFAULT_STORAGECLASS_CEPHFS ∨ name = DEFAULT_STORAGECLASS_RBD) →
       wait_for_resource_state name state timeout fetchR
       = ([Event.infoDefaultResourceSkip], Except.ok ()))
    ∧ (¬(name = DEFAULT_STORAGECLASS_CEPHFS ∨ name = DEFAULT_STORAGECLASS_RBD) →
       Event.waitForResource name state timeout
       ∈ (wait_for_resource_state name state timeout fetchR).1) := by
  constructor
  · intro h
    rw [wait_for_resource_state.eq_def, if_pos h]
  · intro h
    rw [wait_for_resource_state.eq_def, if_neg h]
    cases fetchR with
    | ok v => exact List.mem_cons_self _ _
    | error e => cases e <;> simp

/-- Witness for C8: the CephFS default class short-circuits; an ordinary
resource name is polled. -/
theorem wait_for_resource_state_default_sc_skip_witness :
    wait_for_resource_state DEFAULT_STORAGECLASS_CEPHFS "Bound" 60 (Except.ok ())
      = ([Event.infoDefaultResourceSkip], Except.ok ())
    ∧ Event.waitForResource "my-pvc" "Bound" 60
      ∈ (wait_for_resource_state "my-pvc" "Bound" 60 (Except.ok ())).1 :=
  ⟨(wait_for_resource_state_default_sc_skip DEFAULT_STORAGECLASS_CEPHFS "Bound" 60
      (Except.ok ())).1 (Or.inl rfl),
   (wait_for_resource_state_default_sc_skip "my-pvc" "Bound" 60
      (Except.ok ())).2 (by decide)⟩

/-- Claim C7: `destroy_cluster` is platform-conditional.  On the IBM Power
platform only the storage layer is torn down (no `uninstall_ocs`, no platform
OCP teardown) and the unimplemented full teardown is signalled by an explicit
log message; on every other platform the storage uninstall runs, a failure of
it is logged while the platform OCP teardown still follows, and the overall
outcome is that of the OCP teardown. -/
theorem destroy_cluster_platform_conditional (w : DestroyClusterWorld) :
    (w.platform = IBM_POWER_PLATFORM →
       Event.uninstallOcs ∉ (destroy_cluster w).1
       ∧ Event.ocpDestroy ∉ (destroy_cluster w).1
       ∧ (w.skipOcsDeployment = false → Event.destroyOcs ∈ (destroy_cluster w).1)
       ∧ (w.skipOcpDeployment = false →
          (w.skipOcsDeployment = true ∨ w.destroyOcsR = Except.ok ()) →
          Event.infoDestroyOcpNotImplemented ∈ (destroy_cluster w).1))
    ∧ (w.platform ≠ IBM_POWER_PLATFORM →
       Event.uninstallOcs ∈ (destroy_cluster w).1
       ∧ Event.ocpDestroy ∈ (destroy_cluster w).1
       ∧ (destroy_cluster w).2 = w.ocpDestroyR
       ∧ (∀ ex, w.uninstallOcsR = Except.error ex →
            Event.logUninstallFailed ∈ (destroy_cluster w).1)) := by
  constructor
  · intro hplat
    rw [destroy_cluster, if_pos hplat]
    cases h1 : w.skipOcsDeployment <;> cases h2 : w.skipOcpDeployment <;>
      cases hdr : w.destroyOcsR <;>
      simp [andThen, hdr]
  · intro hplat
    rw [destroy_cluster, if_neg hplat]
    cases hu : w.uninstallOcsR <;> simp [andThen, hu]

/-- Witness for C7: IBM Power world (storage-only teardown, explicit
not-implemented signal) and a non-IBM world with failing storage uninstall
(logged, teardown continues). -/
theorem destroy_cluster_platform_conditional_witness :
    Event.destroyOcs ∈ (destroy_cluster destroyIbmWorld).1
    ∧ Event.infoDestroyOcpNotImplemented ∈ (destroy_cluster destroyIbmWorld).1
    ∧ Event.ocpDestroy ∉ (destroy_cluster destroyIbmWorld).1
    ∧ Event.uninstallOcs ∈ (destroy_cluster destroyAwsWorld).1
    ∧ Event.logUninstallFailed ∈ (destroy_cluster destroyAwsWorld).1
    ∧ Event.ocpDestroy ∈ (destroy_cluster destroyAwsWorld).1 :=
  ⟨((destroy_cluster_platform_conditional destroyIbmWorld).1 rfl).2.2.1 rfl,
   ((destroy_cluster_platform_conditional destroyIbmWorld).1 rfl).2.2.2 rfl (Or.inr rfl),
   ((destroy_cluster_platform_conditional destroyIbmWorld).1 rfl).2.1,
   ((destroy_cluster_platform_conditional destroyAwsWorld).2 (by decide)).1,
   ((destroy_cluster_platform_conditional destroyAwsWorld).2 (by decide)).2.2.2
     (Exc.commandFailed "uninstall failed") rfl,
   ((destroy_cluster_platform_conditional destroyAwsWorld).2 (by decide)).2.1⟩

/-- Without `"Manual"` approval mode, the step list of
`deploy_ocs_via_operator` never names the approval call. -/
theorem viaOpSteps_fst_subset_noManual (v : ViaOpWorld)
    (hne : ¬v.subscriptionPlanApproval = some "Manual") :
    (viaOpSteps v).map Prod.fst ⊆
      ((viaOpEventPool.filter (fun e => e ≠ Event.approveInstallPlan)).map some ++ [none]) := by
  unfold viaOpSteps subscribe_ocs
  simp only [List.map_append, apply_ite (List.map (Prod.fst (α := Option Event) (β := Except Exc Unit))),
    List.map_cons, List.map_nil, if_neg hne]
  repeat'
    first
    | refine List.append_subset.mpr ⟨?_, ?_⟩
    | apply subset_ite
    | decide

/-- Claim C5: the install-plan approval step is invoked if and only if the
configured subscription plan approval mode equals `"Manual"`; when invoked it
happens after the subscription create and before CSV phase polling, and with
any other mode (including the `Automatic` default) the call is never made.
The run is assumed non-UI with the calls up to the CSV lookup succeeding. -/
theorem subscribe_ocs_manual_approval (w : ViaOpWorld)
    (hui : w.uiDeployment = false)
    (h1 : w.setupLocalStorageR = Except.ok ()) (h2 : w.labelTaintR = Except.ok ())
    (h3 : w.olmCreateR = Except.ok ()) (h4 : w.operatorSourceR = Except.ok ())
    (h5 : w.pkgWait1R = Except.ok ()) (h6 : w.subCreateR = Except.ok ())
    (h7 : w.approveR = Except.ok ()) (h8 : w.pkgWait2R = Except.ok ())
    (h9 : w.csvNameR = Except.ok ()) :
    (w.subscriptionPlanApproval = some "Manual" →
       beforeIn (deploy_ocs_via_operator w).1
         Event.createSubscription Event.approveInstallPlan = true
       ∧ beforeIn (deploy_ocs_via_operator w).1
         Event.approveInstallPlan (Event.csvWaitForPhase "Succeeded" 720) = true)
    ∧ (w.subscriptionPlanApproval ≠ some "Manual" →
       Event.approveInstallPlan ∉ (deploy_ocs_via_operator w).1) := by
  constructor
  · intro hman
    cases hls : w.localStorage <;> cases hlive : w.liveDeployment <;>
      cases hcw : w.csvWaitR <;>
      simp [deploy_ocs_via_operator, viaOpSteps, subscribe_ocs, runSteps, beforeIn,
        hui, hman, h1, h2, h3, h4, h5, h6, h7, h8, h9, hls, hlive, hcw]
  · intro hne hmem
    have hs := viaOpSteps_fst_subset_noManual w hne (mem_runSteps hmem)
    simp at hs

/-- Witness for C5: with `"Manual"` the approval call sits between the
subscription create and the CSV phase poll; with the default configuration it
never happens. -/
theorem subscribe_ocs_manual_approval_witness :
    beforeIn (deploy_ocs_via_operator viaOpManual).1
      Event.createSubscription Event.approveInstallPlan = true
    ∧ beforeIn (deploy_ocs_via_operator viaOpManual).1
      Event.approveInstallPlan (Event.csvWaitForPhase "Succeeded" 720) = true
    ∧ Event.approveInstallPlan ∉ (deploy_ocs_via_operator viaOpBase).1 :=
  ⟨((subscribe_ocs_manual_approval viaOpManual rfl rfl rfl rfl rfl rfl rfl rfl rfl
      rfl).1 rfl).1,
   ((subscribe_ocs_manual_approval viaOpManual rfl rfl rfl rfl rfl rfl rfl rfl rfl
      rfl).1 rfl).2,
   (subscribe_ocs_manual_approval viaOpBase rfl rfl rfl rfl rfl rfl rfl rfl rfl
      rfl).2 (by decide)⟩

/-- Counterexample to C3 as stated: with `encryption_at_rest = true` and
`ocs_version = 4.5`, `deploy_ocs_via_operator` does raise
`UnsupportedFeatureError`, but only after mutating create calls (the
namespace/operator-group create and the subscription create) have already been
issued — the error is not raised before any mutating call. -/
theorem viaOp_encryption_not_before_all_creates :
    (deploy_ocs_via_operator viaOpEnc45).2
      = Except.error (Exc.unsupportedFeature
          "Encryption at REST can be enabled only on OCS >= 4.6!")
    ∧ Event.createOlmResources ∈ (deploy_ocs_via_operator viaOpEnc45).1
    ∧ Event.createSubscription ∈ (deploy_ocs_via_operator viaOpEnc45).1 := by
  decide

/-- Claim C3 (amended): with encryption at rest requested and OCS version
below 4.6, the spec assembly raises `UnsupportedFeatureError`, and the error
is raised before the StorageCluster create call is issued (though after the
operator-installation create calls). -/
theorem viaOp_encryption_gate_before_cluster_create (w : ViaOpWorld)
    (hui : w.uiDeployment = false) (hplat : w.platform ≠ IBM_POWER_PLATFORM)
    (henc : w.encryptionAtRest = true) (hver : w.ocsVersion < mkRat 46 10)
    (h1 : w.setupLocalStorageR = Except.ok ()) (h2 : w.labelTaintR = Except.ok ())
    (h3 : w.olmCreateR = Except.ok ()) (h4 : w.operatorSourceR = Except.ok ())
    (h5 : w.pkgWait1R = Except.ok ()) (h6 : w.subCreateR = Except.ok ())
    (h7 : w.approveR = Except.ok ()) (h8 : w.pkgWait2R = Except.ok ())
    (h9 : w.csvNameR = Except.ok ()) (h10 : w.csvWaitR = Except.ok ())
    (h11 : w.modifyCsvR = Except.ok ()) (h12 : w.customScR = Except.ok ()) :
    (deploy_ocs_via_operator w).2
      = Except.error (Exc.unsupportedFeature
          "Encryption at REST can be enabled only on OCS >= 4.6!")
    ∧ Event.createStorageCluster ∉ (deploy_ocs_via_operator w).1 := by
  have hg : encryptionGate w
      = Except.error (Exc.unsupportedFeature
          "Encryption at REST can be enabled only on OCS >= 4.6!") := by
    rw [encryptionGate, if_pos henc, if_neg hplat, if_pos hver]
  cases hls : w.localStorage <;> cases hlive : w.liveDeployment <;>
    by_cases hman : w.subscriptionPlanApproval = some "Manual" <;>
    cases hcc : w.csvChange <;> cases hcsp : w.customStorageClassPath <;>
    simp [deploy_ocs_via_operator, viaOpSteps, subscribe_ocs, runSteps, hui, hg,
      h1, h2, h3, h4, h5, h6, h7, h8, h9, h10, h11, h12, hls, hlive, hman, hcc, hcsp]

/-- Witness for the amended C3 at the concrete 4.5-with-encryption world. -/
theorem viaOp_encryption_gate_before_cluster_create_witness :
    (deploy_ocs_via_operator viaOpEnc45).2
      = Except.error (Exc.unsupportedFeature
          "Encryption at REST can be enabled only on OCS >= 4.6!")
    ∧ Event.createStorageCluster ∉ (deploy_ocs_via_operator viaOpEnc45).1 :=
  viaOp_encryption_gate_before_cluster_create viaOpEnc45 rfl (by decide) rfl
    (by decide) rfl rfl rfl rfl rfl rfl rfl rfl rfl rfl rfl rfl

/-- The patch step emits at most the storage-class patch call. -/
theorem patch_pool (w : DeployOcsWorld) {e : Event}
    (h : e ∈ (patch_default_sc_to_non_default w).1) :
    e = Event.patchDefaultScNonDefault := by
  cases hd : w.defaultStorageclassName with
  | none =>
    simp [patch_default_sc_to_non_default, hd] at h
  | some sc =>
    simp [patch_default_sc_to_non_default, hd] at h
    exact h

/-- Any event emitted before the health section of `deploy_ocs` is the probe
or comes from the operator-install / validation pools. -/
theorem prefix_member_cases {w : DeployOcsWorld} {e : Event}
    (hmem : e ∈ Event.getCephCluster ::
      ((deploy_ocs_via_operator w.viaOp).1 ++ (runSteps (deployOcsMainSteps w)).1)) :
    e = Event.getCephCluster ∨ e ∈ viaOpEventPool ∨ e ∈ mainEventPool := by
  rcases List.mem_cons.mp hmem with h | h
  · exact Or.inl h
  · rcases List.mem_append.mp h with h | h
    · exact Or.inr (Or.inl (viaOp_pool _ h))
    · exact Or.inr (Or.inr (main_pool _ h))

/-- Counterexample to C1 as stated: when the final ceph health check fails
with a `CephHealthException` whose message does not contain the clock-skew
marker, the error does not propagate out of `deploy_ocs` — the deployment
returns success. -/
theorem deploy_ocs_nonskew_error_not_propagated :
    ocsHealthErr.health1R
      = Except.error (Exc.cephHealth "HEALTH_ERR 1 full osd(s)")
    ∧ strContains "HEALTH_ERR 1 full osd(s)" "clock skew detected" = false
    ∧ (deploy_ocs ocsHealthErr).2 = Except.ok () := by
  decide

/-- Claim C1 (amended): when the final ceph health check raises a
`CephHealthException` whose message lacks the clock-skew marker, `deploy_ocs`
catches and suppresses it — the run continues to the default-storage-class
patch whose outcome becomes the overall outcome, no remediation is attempted
and no health recheck happens.  (Only a non-`CephHealthException` error from
the health check would propagate.) -/
theorem deploy_ocs_nonskew_health_error_swallowed (w : DeployOcsWorld) (msg : String)
    (hp : noClusterProbe w) (he : w.externalMode = false)
    (hvia : (deploy_ocs_via_operator w.viaOp).2 = Except.ok ())
    (hmain : (runSteps (deployOcsMainSteps w)).2 = Except.ok ())
    (hh : w.health1R = Except.error (Exc.cephHealth msg))
    (hns : strContains msg "clock skew detected" = false) :
    (deploy_ocs w).2 = (patch_default_sc_to_non_default w).2
    ∧ Event.updateNtpComputeNodes ∉ (deploy_ocs w).1
    ∧ Event.cephHealthCheck 60 10 ∉ (deploy_ocs w).1 := by
  have hhs : cephHealthSection w = ([Event.cephHealthCheck 30 10], Except.ok ()) := by
    simp [cephHealthSection, hh, hns]
  have hd := deploy_ocs_decomp w hp he hvia hmain
  rw [hhs, andThen_ok (t := ([Event.cephHealthCheck 30 10], Except.ok ())) rfl,
    andThen_ok rfl] at hd
  refine ⟨by rw [hd], ?_, ?_⟩ <;> intro hmem <;> rw [hd] at hmem <;>
    rcases List.mem_append.mp hmem with h | h
  · rcases prefix_member_cases h with h | h | h <;> exact absurd h (by decide)
  · rcases List.mem_append.mp h with h | h
    · exact absurd h (by decide)
    · exact absurd (patch_pool w h) (by decide)
  · rcases prefix_member_cases h with h | h | h <;> exact absurd h (by decide)
  · rcases List.mem_append.mp h with h | h
    · exact absurd h (by decide)
    · exact absurd (patch_pool w h) (by decide)

/-- Witness for the amended C1 at the concrete failing-health world. -/
theorem deploy_ocs_nonskew_health_error_swallowed_witness :
    (deploy_ocs ocsHealthErr).2 = (patch_default_sc_to_non_default ocsHealthErr).2
    ∧ Event.updateNtpComputeNodes ∉ (deploy_ocs ocsHealthErr).1
    ∧ Event.cephHealthCheck 60 10 ∉ (deploy_ocs ocsHealthErr).1 :=
  deploy_ocs_nonskew_health_error_swallowed ocsHealthErr "HEALTH_ERR 1 full osd(s)"
    (Or.inl rfl) rfl (by decide) (by decide) rfl (by decide)

/-- Counterexample to C2 as stated: on a non-vSphere platform (here `aws`),
the clock-skew branch of `deploy_ocs` performs the 60-attempt recheck but
invokes zero remediation actions — not exactly one. -/
theorem deploy_ocs_clock_skew_no_remediation_on_aws :
    ((deploy_ocs ocsSkewAws).1).count Event.updateNtpComputeNodes = 0
    ∧ Event.cephHealthCheck 60 10 ∈ (deploy_ocs ocsSkewAws).1
    ∧ (deploy_ocs ocsSkewAws).2 = Except.ok () := by
  decide

/-- Claim C2 (amended): when the 30-attempt health check raises a
`CephHealthException` whose message contains the clock-skew marker, health is
rechecked with the larger budget of 60 attempts and 10-second delay, and the
time-resync remediation is invoked exactly once when the platform is vSphere
and not at all otherwise; when the recheck succeeds, overall health validation
succeeds and the run continues to the default-storage-class patch whose
outcome becomes the overall outcome. -/
theorem deploy_ocs_clock_skew_remediation (w : DeployOcsWorld) (msg : String)
    (hp : noClusterProbe w) (he : w.externalMode = false)
    (hvia : (deploy_ocs_via_operator w.viaOp).2 = Except.ok ())
    (hmain : (runSteps (deployOcsMainSteps w)).2 = Except.ok ())
    (hh : w.health1R = Except.error (Exc.cephHealth msg))
    (hcs : strContains msg "clock skew detected" = true)
    (hr : w.health2R = Except.ok true) :
    (deploy_ocs w).2 = (patch_default_sc_to_non_default w).2
    ∧ Event.cephHealthCheck 60 10 ∈ (deploy_ocs w).1
    ∧ ((deploy_ocs w).1).count Event.updateNtpComputeNodes
      = (if w.platform = VSPHERE_PLATFORM then 1 else 0) := by
  have hhs : cephHealthSection w
      = ([Event.cephHealthCheck 30 10]
          ++ (if w.platform = VSPHERE_PLATFORM then [Event.updateNtpComputeNodes] else [])
          ++ [Event.cephHealthCheck 60 10], Except.ok ()) := by
    simp [cephHealthSection, hh, hcs, hr, assertStep]
  have hd := deploy_ocs_decomp w hp he hvia hmain
  rw [hhs, andThen_ok (t := ([Event.cephHealthCheck 30 10]
      ++ (if w.platform = VSPHERE_PLATFORM then [Event.updateNtpComputeNodes] else [])
      ++ [Event.cephHealthCheck 60 10], Except.ok ())) rfl,
    andThen_ok rfl] at hd
  refine ⟨by rw [hd], ?_, ?_⟩
  · rw [hd]
    refine List.mem_append.mpr (Or.inr (List.mem_append.mpr (Or.inl ?_)))
    simp
  · rw [hd]
    rw [List.count_append, List.count_append]
    have hc1 : (Event.getCephCluster ::
        ((deploy_ocs_via_operator w.viaOp).1
          ++ (runSteps (deployOcsMainSteps w)).1)).count Event.updateNtpComputeNodes = 0 :=
      List.count_eq_zero.mpr (fun hmem => by
        rcases prefix_member_cases hmem with h | h | h <;> exact absurd h (by decide))
    have hc3 : ((patch_default_sc_to_non_default w).1).count Event.updateNtpComputeNodes = 0 :=
      List.count_eq_zero.mpr (fun hmem => absurd (patch_pool w hmem) (by decide))
    rw [hc1, hc3]
    by_cases hpl : w.platform = VSPHERE_PLATFORM <;>
      simp [hpl, List.count_append]

/-- Witness for the amended C2 on vSphere: exactly one NTP resync and a
successful 60-attempt recheck. -/
theorem deploy_ocs_clock_skew_remediation_witness :
    (deploy_ocs ocsSkewVsphere).2 = (patch_default_sc_to_non_default ocsSkewVsphere).2
    ∧ Event.cephHealthCheck 60 10 ∈ (deploy_ocs ocsSkewVsphere).1
    ∧ ((deploy_ocs ocsSkewVsphere).1).count Event.updateNtpComputeNodes = 1 := by
  have h := deploy_ocs_clock_skew_remediation ocsSkewVsphere
    "HEALTH_WARN clock skew detected on mon-a" (Or.inl rfl) rfl (by decide) (by decide)
    rfl (by decide) rfl
  exact ⟨h.1, h.2.1, h.2.2.trans (by decide)⟩

/-- A successful block ran all its steps: the trace is the full event list. -/
theorem runSteps_ok_of_result {l : List Step} (h : (runSteps l).2 = Except.ok ()) :
    runSteps l = (l.filterMap Prod.fst, Except.ok ()) := by
  induction l with
  | nil => simp [runSteps]
  | cons p rest ih =>
    obtain ⟨oe, r⟩ := p
    cases r with
    | error e => simp [runSteps] at h
    | ok v =>
      have h2 : (runSteps rest).2 = Except.ok () := by simpa [runSteps] using h
      simp [runSteps, ih h2, List.filterMap_cons]
      cases oe <;> simp [Option.toList]

theorem beforeIn_cons_of_ne {x a b : Event} {t : List Event}
    (hx : x ≠ a) (h : beforeIn t a b = true) : beforeIn (x :: t) a b = true := by
  simp only [beforeIn, if_neg hx]
  exact h

theorem beforeIn_append_right {l1 l2 : List Event} {a b : Event}
    (ha : a ∉ l1) (h : beforeIn l2 a b = true) : beforeIn (l1 ++ l2) a b = true := by
  induction l1 with
  | nil => exact h
  | cons x rest ih =>
    have hx : x ≠ a := fun hxa => ha (hxa ▸ List.mem_cons_self _ _)
    have hrest : a ∉ rest := fun hm => ha (List.mem_cons_of_mem _ hm)
    exact beforeIn_cons_of_ne hx (ih hrest)

/-- Counterexample to C9 as stated: the created-and-bound PVC validation is
invoked bare, not retried — its first-attempt `CommandFailed` aborts
`deploy_ocs` even though under the claimed 3-attempt/15s retry (which does
catch `CommandFailed`) the validation would have succeeded on the second
attempt. -/
theorem deploy_ocs_pvc_bound_not_retried :
    Event.validatePvcCreatedBound none ∈ (deploy_ocs ocsMonBoundFail).1
    ∧ Event.validatePvcCreatedBound (some (3, 15)) ∉ (deploy_ocs ocsMonBoundFail).1
    ∧ (deploy_ocs ocsMonBoundFail).2 = Except.error (Exc.commandFailed "oc get pvc failed")
    ∧ retryRun respinCaught 3 ocsMonBoundFail.pvcBoundAttempts 0 = Except.ok () := by
  decide

/-- Claim C9 (amended): with persistent monitoring requested, `deploy_ocs`
reconfigures the monitoring stack (config-map creation), sleeps a fixed 45 s
settle delay, then runs the three validations in order — pod respin retried
with 3 attempts and 15 s delay, PVC created-and-bound invoked once without
retry, PVC mounted retried with 3 attempts and 15 s delay. -/
theorem deploy_ocs_persistent_monitoring (w : DeployOcsWorld)
    (hp : noClusterProbe w) (he : w.externalMode = false)
    (hvia : (deploy_ocs_via_operator w.viaOp).2 = Except.ok ())
    (hmain : (runSteps (deployOcsMainSteps w)).2 = Except.ok ())
    (hm1 : w.monitoringEnabled = true) (hm2 : w.persistentMonitoring = true) :
    beforeIn (deploy_ocs w).1
      Event.createConfigmapMonitoring (Event.sleep 45) = true
    ∧ beforeIn (deploy_ocs w).1
      (Event.sleep 45) (Event.validateRespin (some (3, 15))) = true
    ∧ beforeIn (deploy_ocs w).1
      (Event.validateRespin (some (3, 15))) (Event.validatePvcCreatedBound none) = true
    ∧ beforeIn (deploy_ocs w).1
      (Event.validatePvcCreatedBound none) (Event.validatePvcMounted (some (3, 15))) = true := by
  have hd := deploy_ocs_decomp w hp he hvia hmain
  rw [andThen_ok rfl] at hd
  have hmtr : (runSteps (deployOcsMainSteps w)).1
      = [Event.podWait "app=rook-ceph-mon" 3 600, Event.podWait "app=rook-ceph-mgr" 1 600,
         Event.podWait "app=rook-ceph-osd" 3 600, Event.validateClusterOnPvc,
         Event.validatePdbCreation, Event.setupCephToolbox,
         Event.podWait "app=rook-ceph-tools" 1 600, Event.getCephFilesystem,
         Event.validateCephFilesystem, Event.defaultStorageClassLookup,
         Event.getMonitoringPods, Event.createConfigmapMonitoring, Event.sleep 45,
         Event.validateRespin (some (3, 15)), Event.validatePvcCreatedBound none,
         Event.validatePvcMounted (some (3, 15)), Event.changeRegistryBackend] := by
    rw [runSteps_ok_of_result hmain]
    simp [deployOcsMainSteps, monitoringSteps, hm1, hm2]
  refine ⟨?_, ?_, ?_, ?_⟩ <;>
    (rw [hd]
     simp only [List.cons_append, List.append_assoc]
     apply beforeIn_cons_of_ne (by decide)
     apply beforeIn_append_right
       (fun hmem => absurd (viaOp_pool _ hmem) (by decide))
     rw [hmtr]
     exact beforeIn_append_left (by decide) _)

/-- Witness for the amended C9 on the all-succeeding monitoring world. -/
theorem deploy_ocs_persistent_monitoring_witness :
    beforeIn (deploy_ocs ocsMon).1
      Event.createConfigmapMonitoring (Event.sleep 45) = true
    ∧ beforeIn (deploy_ocs ocsMon).1
      (Event.sleep 45) (Event.validateRespin (some (3, 15))) = true
    ∧ beforeIn (deploy_ocs ocsMon).1
      (Event.validateRespin (some (3, 15))) (Event.validatePvcCreatedBound none) = true
    ∧ beforeIn (deploy_ocs ocsMon).1
      (Event.validatePvcCreatedBound none) (Event.validatePvcMounted (some (3, 15))) = true :=
  deploy_ocs_persistent_monitoring ocsMon (Or.inl rfl) rfl (by decide) (by decide)
    rfl rfl

/-- Counterexample to C4 as stated: diagnostic collection is not isolated
from the main failure — when the collection call raises, its exception
propagates out of `deploy_cluster` in place of the original deployment
failure, masking it. -/
theorem deploy_cluster_collection_masks_failure :
    (deploy_ocs clusterCollectMask.ocs).2 = Except.error (Exc.other "boom")
    ∧ (deploy_cluster clusterCollectMask).2
      = Except.error (Exc.commandFailed "disk full") := by
  decide

/-- Claim C4 (amended): when the OCS phase of `deploy_cluster` raises and
`gather_on_deploy_failure` is configured, the two diagnostic collection calls
are invoked and then the original exception is re-raised unchanged — provided
the collection calls themselves succeed; without the gather flag no collection
happens and the original exception propagates directly; and when the first
collection call raises, its exception propagates in place of the original
(the collection is not isolated from the main failure). -/
theorem deploy_cluster_failure_collection (w : DeployClusterWorld) (e : Exc)
    (hocp : (ocpPhase w).2 = Except.ok ())
    (hskip : w.skipOcsDeployment = false)
    (herr : (deploy_ocs w.ocs).2 = Except.error e) :
    (w.gatherOnDeployFailure = true → w.collectFail1R = Except.ok () →
       w.collectFail2R = Except.ok () →
       deploy_cluster w
       = ((ocpPhase w).1 ++ ((deploy_ocs w.ocs).1
           ++ [Event.collectLogs false true true, Event.collectLogs true false true]),
          Except.error e))
    ∧ (w.gatherOnDeployFailure = false →
       deploy_cluster w = ((ocpPhase w).1 ++ (deploy_ocs w.ocs).1, Except.error e))
    ∧ (∀ e2, w.gatherOnDeployFailure = true → w.collectFail1R = Except.error e2 →
       (deploy_cluster w).2 = Except.error e2) := by
  refine ⟨?_, ?_, ?_⟩
  · intro hg hc1 hc2
    rw [deploy_cluster, andThen_ok hocp]
    simp [ocsPhase, ocsPhaseHandler, hskip, herr, hg, hc1, hc2]
  · intro hg
    rw [deploy_cluster, andThen_ok hocp]
    simp [ocsPhase, ocsPhaseHandler, hskip, herr, hg]
  · intro e2 hg hc1
    rw [deploy_cluster, andThen_ok hocp]
    simp [ocsPhase, ocsPhaseHandler, hskip, herr, hg, hc1]

/-- Witness for the amended C4: collections run, original error re-raised. -/
theorem deploy_cluster_failure_collection_witness :
    deploy_cluster clusterGather
    = ((ocpPhase clusterGather).1 ++ ((deploy_ocs clusterGather.ocs).1
        ++ [Event.collectLogs false true true, Event.collectLogs true false true]),
       Except.error (Exc.other "boom")) :=
  (deploy_cluster_failure_collection clusterGather (Exc.other "boom")
    (by decide) rfl (by decide)).1 rfl rfl rfl

end OcsCi
